import Mathlib

/-!
# Verification of the MFD currency-rate scraper

Shallow embedding of the two scripts of this repository:

* `level1.py` — an object-oriented pipeline `MFDDataFetcher` →
  `MFDCurrencyParser.parse` → `TableFormatter.format` that extracts a
  currency-rate table from an HTML page and renders it as fixed-width text;
* `level2.py` — a procedural script that extracts (date, rate) pairs from the
  first table of the page and plots them.

The HTML layer is abstracted at exactly the granularity the scripts consume
it: a document is its list of `<table>` elements in document order; a table
carries its `class` attribute values and its list of `<tr>` rows; a row is the
list of `get_text()` strings of its `<td>` cells, in order.  Everything the
scripts do beyond that point (stripping, slicing, number and date parsing,
fixed-width layout) is embedded function-by-function below.
-/

namespace Mfd

/-- One `<table>` element: its `class` attribute values and its `<tr>` rows,
each row given as the `get_text()` contents of its `<td>` cells in order. -/
structure HtmlTable where
  classes : List String
  rows : List (List String)
deriving Repr, DecidableEq

/-- An HTML document, abstracted as its `<table>` elements in document
order. -/
structure HtmlDoc where
  tables : List HtmlTable
deriving Repr, DecidableEq

/-! ## Python string primitives used by the scripts -/

/-- The whitespace characters removed by Python's `str.strip()`. -/
def isPySpace (c : Char) : Bool :=
  c = ' ' || c = '\t' || c = '\n' || c = '\r' || c = '\x0b' || c = '\x0c'

/-- Python's `str.strip()`: remove leading and trailing whitespace. -/
def pystrip (s : String) : String :=
  ⟨((s.data.dropWhile isPySpace).reverse.dropWhile isPySpace).reverse⟩

/-- A run of `n` space characters, as used by `ljust`/`rjust` padding. -/
def spaces (n : Nat) : String :=
  ⟨List.replicate n ' '⟩

/-- Python's `str.ljust(w)`: pad on the right with spaces up to width `w`
(measured in code points); strings already at least that wide are returned
unchanged. -/
def pyLjust (s : String) (w : Nat) : String :=
  if w ≤ s.data.length then s else s ++ spaces (w - s.data.length)

/-- Python's `str.rjust(w)`: pad on the left with spaces up to width `w`. -/
def pyRjust (s : String) (w : Nat) : String :=
  if w ≤ s.data.length then s else spaces (w - s.data.length) ++ s

/-- Python's `sep.join(parts)`. -/
def pyJoin (sep : String) : List String → String
  | [] => ""
  | [x] => x
  | x :: xs => x ++ sep ++ pyJoin sep xs

/-! ## level1.py — data model and strict parser -/

/-- The `CurrencyRate` dataclass of `level1.py`: one (date, rate, change)
triple, all fields raw strings. -/
structure CurrencyRate where
  date : String
  rate : String
  change : String
deriving Repr, DecidableEq

/-- `soup.find('table', class_='mfd-table')`: the first table of the document
whose `class` values include the given class, if any. -/
def findTableByClass (cls : String) (tables : List HtmlTable) : Option HtmlTable :=
  tables.find? (fun t => decide (cls ∈ t.classes))

/-- The row loop of `MFDCurrencyParser.parse`: for each row, if it has exactly
3 `<td>` cells, build a `CurrencyRate` from the stripped cell texts in column
order (date, rate, change); otherwise skip the row. -/
def parseDataRows : List (List String) → List CurrencyRate
  | [] => []
  | columns :: rest =>
    match columns with
    | [c0, c1, c2] =>
      { date := pystrip c0, rate := pystrip c1, change := pystrip c2 } :: parseDataRows rest
    | _ => parseDataRows rest

/-- The error message raised when the rates table is missing. -/
def tableNotFoundMsg : String := "Таблица с курсами не найдена в HTML контенте"

/-- `MFDCurrencyParser.parse`: locate the table with class `mfd-table`, raise
`ValueError` (modelled as `Except.error`) when absent, otherwise drop the
header row and process the remaining rows. -/
def MFDCurrencyParser.parse (doc : HtmlDoc) : Except String (List CurrencyRate) :=
  match findTableByClass "mfd-table" doc.tables with
  | none => .error tableNotFoundMsg
  | some table => .ok (parseDataRows (table.rows.drop 1))

/-! ## level1.py — text-table formatter -/

/-- The message returned by `TableFormatter.format` on empty input. -/
def noDataMessage : String := "Нет данных для отображения"

/-- The header line of the text table. -/
def tableHeader : String :=
  pyLjust "Дата" 15 ++ " |" ++ pyRjust "Курс" 10 ++ "  |" ++ pyRjust "Изменение" 10

/-- The separator line: 40 dash characters. -/
def tableSeparator : String :=
  ⟨List.replicate 40 '-'⟩

/-- One data line of the text table. -/
def formatRateLine (r : CurrencyRate) : String :=
  pyLjust r.date 15 ++ " | " ++ pyRjust r.rate 10 ++ " | " ++ pyRjust r.change 10

/-- `TableFormatter.format`: the no-data message on empty input, otherwise the
newline-join of the header, the separator and one line per record. -/
def TableFormatter.format (rates : List CurrencyRate) : String :=
  if rates.isEmpty then noDataMessage
  else pyJoin "\n" (tableHeader :: tableSeparator :: rates.map formatRateLine)

/-! ## level2.py — chart-mode parsing -/

/-- A `datetime` value as far as the chart script uses one: the calendar date
produced by `datetime.strptime(s, '%d.%m.%Y')`. -/
structure PyDate where
  day : Nat
  month : Nat
  year : Nat
deriving Repr, DecidableEq

/-- Gregorian leap-year rule, as used by `datetime` for day-of-month
validation. -/
def isLeapYear (y : Nat) : Bool :=
  (y % 4 = 0 && y % 100 ≠ 0) || y % 400 = 0

/-- Number of days in month `m` of year `y`. -/
def daysInMonth (m y : Nat) : Nat :=
  if m = 2 then (if isLeapYear y then 29 else 28)
  else if m = 4 ∨ m = 6 ∨ m = 9 ∨ m = 11 then 30
  else 31

/-- Value of a list of decimal digit characters. -/
def digitsToNat (ds : List Char) : Nat :=
  ds.foldl (fun a c => a * 10 + (c.toNat - 48)) 0

/-- Every character is a decimal digit. -/
def allDigits (ds : List Char) : Bool :=
  ds.all (·.isDigit)

/-- `datetime.strptime(s, '%d.%m.%Y')`: day (1–2 digits), dot, month (1–2
digits), dot, four-digit year, matching the whole string; the day must be
valid for the month and the year positive.  `none` models `ValueError`. -/
def strptimeDMY (s : String) : Option PyDate :=
  match s.data.splitOn '.' with
  | [ds, ms, ys] =>
    let d := digitsToNat ds
    let m := digitsToNat ms
    let y := digitsToNat ys
    if allDigits ds ∧ allDigits ms ∧ allDigits ys ∧
        1 ≤ ds.length ∧ ds.length ≤ 2 ∧ 1 ≤ ms.length ∧ ms.length ≤ 2 ∧ ys.length = 4 ∧
        1 ≤ d ∧ 1 ≤ m ∧ m ≤ 12 ∧ d ≤ daysInMonth m y ∧ 1 ≤ y
    then some ⟨d, m, y⟩ else none
  | _ => none

/-- Python's `float()` on plain decimal literals: optional surrounding
whitespace, optional sign, digits with an optional decimal point, at least one
digit in total.  `none` models `ValueError` on any other input. -/
def pyFloat (s : String) : Option Rat :=
  let t := (pystrip s).data
  let sgn : Rat := match t with
    | '-' :: _ => -1
    | _ => 1
  let u : List Char := match t with
    | '+' :: rest => rest
    | '-' :: rest => rest
    | _ => t
  let intPart := u.takeWhile (· ≠ '.')
  match u.dropWhile (· ≠ '.') with
  | [] =>
    if allDigits intPart ∧ intPart ≠ [] then some (sgn * digitsToNat intPart) else none
  | _ :: frac =>
    if allDigits intPart ∧ allDigits frac ∧ (intPart ≠ [] ∨ frac ≠ []) then
      some (sgn * ((digitsToNat intPart : Rat) + (digitsToNat frac : Rat) / 10 ^ frac.length))
    else none

/-- `value.replace('*', '')` as used on the rate cell: delete every asterisk
character. -/
def removeAsterisks (s : String) : String :=
  ⟨s.data.filter (· ≠ '*')⟩

/-- Python's `s[2:]`: drop the first two characters (code points). -/
def pyDropFirst2 (s : String) : String :=
  ⟨s.data.drop 2⟩

/-- The row loop of `level2.py`: for each row with at least 2 `<td>` cells,
strip the date cell and drop its first 2 characters, strip the rate cell and
delete its asterisks; if the rate converts to a float and the date parses as
`%d.%m.%Y`, append both to the output arrays, otherwise skip the row. -/
def processChartRows : List (List String) → List PyDate × List Rat
  | [] => ([], [])
  | columns :: rest =>
    let acc := processChartRows rest
    match columns with
    | c0 :: c1 :: _ =>
      let dateStr : String := pyDropFirst2 (pystrip c0)
      let value := pystrip c1
      match pyFloat (removeAsterisks value), strptimeDMY dateStr with
      | some rate, some dateObj => (dateObj :: acc.1, rate :: acc.2)
      | _, _ => acc
    | _ => acc

/-- Observable outcome of one run of `level2.py` after the fetch: either a
chart is shown for the collected arrays, or the script prints
`"Таблица не найдена."` and shows nothing. -/
inductive ChartOutcome where
  | chart (dates : List PyDate) (rates : List Rat)
  | tableMissing
deriving Repr, DecidableEq

/-- `level2.py` after the fetch: `soup.find('table')` takes the first table of
the document; when present, the header row is dropped and the rest feeds the
chart, otherwise the failure message is printed. -/
def level2Run (doc : HtmlDoc) : ChartOutcome :=
  match doc.tables.head? with
  | some table =>
    let p := processChartRows (table.rows.drop 1)
    .chart p.1 p.2
  | none => .tableMissing

end Mfd

namespace Mfd

/-! ## Helper lemmas -/

theorem data_append (a b : String) : (a ++ b).data = a.data ++ b.data := rfl

theorem nl_notMem_spaces (n : Nat) : '\n' ∉ (spaces n).data := by
  intro h
  exact absurd (List.eq_of_mem_replicate h) (by decide)

theorem nl_notMem_pyLjust (s : String) (w : Nat) (h : '\n' ∉ s.data) :
    '\n' ∉ (pyLjust s w).data := by
  unfold pyLjust
  split
  · exact h
  · rw [data_append]
    intro hm
    rcases List.mem_append.mp hm with h1 | h2
    · exact h h1
    · exact nl_notMem_spaces _ h2

theorem nl_notMem_pyRjust (s : String) (w : Nat) (h : '\n' ∉ s.data) :
    '\n' ∉ (pyRjust s w).data := by
  unfold pyRjust
  split
  · exact h
  · rw [data_append]
    intro hm
    rcases List.mem_append.mp hm with h1 | h2
    · exact nl_notMem_spaces _ h1
    · exact h h2

theorem nl_notMem_formatRateLine (r : CurrencyRate)
    (h1 : '\n' ∉ r.date.data) (h2 : '\n' ∉ r.rate.data) (h3 : '\n' ∉ r.change.data) :
    '\n' ∉ (formatRateLine r).data := by
  unfold formatRateLine
  intro hm
  simp only [data_append, List.mem_append] at hm
  rcases hm with ((((ha | hb) | hc) | hd) | he)
  · exact nl_notMem_pyLjust _ _ h1 ha
  · exact absurd hb (by decide)
  · exact nl_notMem_pyRjust _ _ h2 hc
  · exact absurd hd (by decide)
  · exact nl_notMem_pyRjust _ _ h3 he

theorem count_nl_pyJoin : ∀ ls : List String, ls ≠ [] → (∀ l ∈ ls, '\n' ∉ l.data) →
    ((pyJoin "\n" ls).data.count '\n') = ls.length - 1
  | [], h, _ => absurd rfl h
  | [x], _, hfree => by
    have hx : '\n' ∉ x.data := hfree x (by simp)
    simp [pyJoin, List.count_eq_zero.mpr hx]
  | x :: y :: xs, _, hfree => by
    have hx : '\n' ∉ x.data := hfree x (by simp)
    have ih := count_nl_pyJoin (y :: xs) (by simp)
      (fun l hl => hfree l (List.mem_cons_of_mem _ hl))
    have hnl : (("\n" : String)).data.count '\n' = 1 := by decide
    simp only [pyJoin, data_append, List.count_append, ih,
      List.count_eq_zero.mpr hx, hnl, List.length_cons]
    omega

end Mfd

namespace Mfd

/-! ## Claim theorems -/

/-- C1: whenever `MFDCurrencyParser.parse` locates its table, the record list
is exactly the row-loop result over the post-header rows; a row whose cell
count is not 3 contributes no record, and a row with exactly 3 cells
contributes exactly one. -/
theorem parse_row_count_filter :
    (∀ (doc : HtmlDoc) (t : HtmlTable),
        findTableByClass "mfd-table" doc.tables = some t →
        MFDCurrencyParser.parse doc = .ok (parseDataRows (t.rows.drop 1))) ∧
    (∀ (columns : List String) (rest : List (List String)),
        columns.length ≠ 3 → parseDataRows (columns :: rest) = parseDataRows rest) ∧
    (∀ (columns : List String) (rest : List (List String)),
        columns.length = 3 →
        (parseDataRows (columns :: rest)).length = (parseDataRows rest).length + 1) := by
  refine ⟨?_, ?_, ?_⟩
  · intro doc t h
    simp [MFDCurrencyParser.parse, h]
  · intro columns rest h
    rcases columns with _ | ⟨a, _ | ⟨b, _ | ⟨c, _ | ⟨d, tl⟩⟩⟩⟩
    · rfl
    · rfl
    · rfl
    · exact absurd (by simp) h
    · rfl
  · intro columns rest h
    rcases columns with _ | ⟨a, _ | ⟨b, _ | ⟨c, _ | ⟨d, tl⟩⟩⟩⟩
    · simp at h
    · simp at h
    · simp at h
    · simp [parseDataRows]
    · simp at h

/-- Witness for C1 at concrete inputs: a 2-cell row is dropped, a 3-cell row
produces one record, and the parser returns the row-loop result for a found
table. -/
theorem parse_row_count_filter_witness :
    MFDCurrencyParser.parse ⟨[⟨["mfd-table"], [["h1", "h2"], ["a", "b", "c"]]⟩]⟩ =
      .ok (parseDataRows [["a", "b", "c"]]) ∧
    parseDataRows [["a", "b"], ["a", "b", "c"]] = parseDataRows [["a", "b", "c"]] ∧
    (parseDataRows [["a", "b", "c"]]).length = (parseDataRows []).length + 1 :=
  ⟨parse_row_count_filter.1 ⟨[⟨["mfd-table"], [["h1", "h2"], ["a", "b", "c"]]⟩]⟩
      ⟨["mfd-table"], [["h1", "h2"], ["a", "b", "c"]]⟩ (by decide),
   parse_row_count_filter.2.1 ["a", "b"] [["a", "b", "c"]] (by decide),
   parse_row_count_filter.2.2 ["a", "b", "c"] [] (by decide)⟩

/-- C2: a 3-cell row produces a record whose `date`, `rate` and `change`
fields are the whitespace-stripped texts of cells 0, 1 and 2, in that
order. -/
theorem parse_row_fields (c0 c1 c2 : String) (rest : List (List String)) :
    parseDataRows ([c0, c1, c2] :: rest) =
      { date := pystrip c0, rate := pystrip c1, change := pystrip c2 } :: parseDataRows rest :=
  rfl

/-- C3: formatting the empty record list returns exactly the no-data message,
a single line which is not the header-plus-separator table skeleton. -/
theorem format_empty :
    TableFormatter.format [] = noDataMessage ∧
    noDataMessage = "Нет данных для отображения" ∧
    '\n' ∉ (TableFormatter.format []).data ∧
    TableFormatter.format [] ≠ pyJoin "\n" [tableHeader, tableSeparator] := by
  decide

end Mfd

namespace Mfd

/-- Counterexample to C4 as stated: for the record whose date field contains
an embedded newline, the formatted output cannot be decomposed into
`2 + 1 = 3` newline-separated (newline-free) lines — it contains 3 newline
characters, so it has 4 lines. -/
theorem format_line_count_cex :
    ¬ ∃ ls : List String,
        ls.length = 2 + ([⟨"a\nb", "", ""⟩] : List CurrencyRate).length ∧
        (∀ l ∈ ls, '\n' ∉ l.data) ∧
        TableFormatter.format [⟨"a\nb", "", ""⟩] = pyJoin "\n" ls := by
  rintro ⟨ls, hlen, hfree, heq⟩
  have hcount := count_nl_pyJoin ls (by rintro rfl; simp at hlen) hfree
  rw [← heq] at hcount
  have h3 : (TableFormatter.format [⟨"a\nb", "", ""⟩]).data.count '\n' = 3 := by decide
  rw [h3] at hcount
  simp at hlen
  omega

/-- C4 (amended): for every non-empty record list whose fields contain no
newline character, the formatted output is the newline-join of exactly
`2 + len(records)` newline-free lines: the header, the 40-dash separator and
one line per record, in order. -/
theorem format_line_count (rs : List CurrencyRate) (hne : rs ≠ [])
    (hfree : ∀ r ∈ rs, '\n' ∉ r.date.data ∧ '\n' ∉ r.rate.data ∧ '\n' ∉ r.change.data) :
    ∃ ls : List String,
      ls.length = 2 + rs.length ∧
      (∀ l ∈ ls, '\n' ∉ l.data) ∧
      TableFormatter.format rs = pyJoin "\n" ls ∧
      ls = tableHeader :: tableSeparator :: rs.map formatRateLine := by
  refine ⟨tableHeader :: tableSeparator :: rs.map formatRateLine, ?_, ?_, ?_, rfl⟩
  · simp
    omega
  · intro l hl
    rcases List.mem_cons.mp hl with rfl | hl'
    · decide
    · rcases List.mem_cons.mp hl' with rfl | hl''
      · decide
      · obtain ⟨r, hr, rfl⟩ := List.mem_map.mp hl''
        obtain ⟨h1, h2, h3⟩ := hfree r hr
        exact nl_notMem_formatRateLine r h1 h2 h3
  · have hne' : rs.isEmpty = false := by
      rcases rs with _ | ⟨a, tl⟩
      · exact absurd rfl hne
      · rfl
    simp [TableFormatter.format, hne']

/-- Witness for C4 (amended) at a concrete one-record list. -/
theorem format_line_count_witness :
    ∃ ls : List String,
      ls.length = 2 + ([⟨"01.01.2024", "90.50", "+0.20"⟩] : List CurrencyRate).length ∧
      (∀ l ∈ ls, '\n' ∉ l.data) ∧
      TableFormatter.format [⟨"01.01.2024", "90.50", "+0.20"⟩] = pyJoin "\n" ls ∧
      ls = tableHeader :: tableSeparator ::
        ([⟨"01.01.2024", "90.50", "+0.20"⟩] : List CurrencyRate).map formatRateLine :=
  format_line_count [⟨"01.01.2024", "90.50", "+0.20"⟩] (by decide) (by decide)

end Mfd

namespace Mfd

/-- Counterexample to C5 as stated: on the claimed input the pipeline does
produce header, separator and one data line, but the data line has six spaces
between the date and the first pipe (the 10-character date left-justified to
width 15 plus the literal space of the column separator), not the five of the
line quoted in the claim. -/
theorem pipeline_example_cex :
    MFDCurrencyParser.parse ⟨[⟨["mfd-table"],
        [["Date", "Rate", "Change"], ["01.01.2024", "90.50", "+0.20"]]⟩]⟩ =
      .ok [⟨"01.01.2024", "90.50", "+0.20"⟩] ∧
    TableFormatter.format [⟨"01.01.2024", "90.50", "+0.20"⟩] =
      pyJoin "\n" [tableHeader, tableSeparator,
        formatRateLine ⟨"01.01.2024", "90.50", "+0.20"⟩] ∧
    formatRateLine ⟨"01.01.2024", "90.50", "+0.20"⟩ ≠
      "01.01.2024     |      90.50 |      +0.20" ∧
    TableFormatter.format [⟨"01.01.2024", "90.50", "+0.20"⟩] ≠
      pyJoin "\n" [tableHeader, tableSeparator,
        "01.01.2024     |      90.50 |      +0.20"] :=
  ⟨rfl, by decide, by decide, by decide⟩

/-- C5 (amended): on the table with header row `["Date","Rate","Change"]` and
data row `["01.01.2024","90.50","+0.20"]`, the pipeline outputs the header
line, the 40-dash separator, and exactly the data line
`"01.01.2024      |      90.50 |      +0.20"` (six spaces before the first
pipe). -/
theorem pipeline_example :
    MFDCurrencyParser.parse ⟨[⟨["mfd-table"],
        [["Date", "Rate", "Change"], ["01.01.2024", "90.50", "+0.20"]]⟩]⟩ =
      .ok [⟨"01.01.2024", "90.50", "+0.20"⟩] ∧
    TableFormatter.format [⟨"01.01.2024", "90.50", "+0.20"⟩] =
      tableHeader ++ "\n" ++ tableSeparator ++ "\n" ++
        "01.01.2024      |      90.50 |      +0.20" ∧
    tableSeparator = ⟨List.replicate 40 '-'⟩ :=
  ⟨rfl, by decide, by decide⟩

/-- C6: in chart mode, the row `["с 01.01.2024", "90.50*", "x"]` yields the
date 1.1.2024 (after dropping the fixed 2-character prefix from the date cell
and parsing the rest as `%d.%m.%Y`) and the rate `90.5 = 181/2` (after
deleting asterisks from the rate cell and converting it to a float). -/
theorem chart_example_row :
    processChartRows [["с 01.01.2024", "90.50*", "x"]] =
      ([⟨1, 1, 2024⟩], [(181 : Rat) / 2]) ∧
    pyDropFirst2 (pystrip "с 01.01.2024") = "01.01.2024" ∧
    removeAsterisks (pystrip "90.50*") = "90.50" ∧
    strptimeDMY "01.01.2024" = some ⟨1, 1, 2024⟩ := by
  refine ⟨?_, by decide, by decide, by decide⟩
  show (([⟨1, 1, 2024⟩] : List PyDate),
      [((1 : Rat)) * ((((90 : Nat) : Rat)) + (((50 : Nat) : Rat)) / 10 ^ (2 : Nat))]) = _
  norm_num

/-- C7: the two output arrays of the chart-mode row loop always have equal
length, and a row (with at least two cells) whose rate does not convert to a
float or whose date does not parse contributes to neither array. -/
theorem chart_arrays_alignment :
    (∀ rows : List (List String),
        (processChartRows rows).1.length = (processChartRows rows).2.length) ∧
    (∀ (c0 c1 : String) (cs : List String) (rest : List (List String)),
        (pyFloat (removeAsterisks (pystrip c1)) = none ∨
          strptimeDMY (pyDropFirst2 (pystrip c0)) = none) →
        processChartRows ((c0 :: c1 :: cs) :: rest) = processChartRows rest) := by
  constructor
  · intro rows
    induction rows with
    | nil => rfl
    | cons columns rest ih =>
      rcases columns with _ | ⟨c0, _ | ⟨c1, cs⟩⟩
      · simpa [processChartRows] using ih
      · simpa [processChartRows] using ih
      · simp only [processChartRows]
        rcases hf : pyFloat (removeAsterisks (pystrip c1)) with _ | rate <;>
          rcases hd : strptimeDMY (pyDropFirst2 (pystrip c0)) with _ | d <;>
            simp [hf, hd, ih]
  · intro c0 c1 cs rest h
    rcases hf : pyFloat (removeAsterisks (pystrip c1)) with _ | rate
    · simp [processChartRows, hf]
    · rcases hd : strptimeDMY (pyDropFirst2 (pystrip c0)) with _ | d
      · simp [processChartRows, hf, hd]
      · rcases h with h | h
        · rw [hf] at h
          exact absurd h (by simp)
        · rw [hd] at h
          exact absurd h (by simp)

/-- Witness for C7 at a concrete skipped row: the rate cell `"9x0"` fails
float conversion, so the row contributes nothing. -/
theorem chart_arrays_alignment_witness :
    processChartRows [["с 01.01.2024", "9x0", "z"]] = processChartRows [] :=
  chart_arrays_alignment.2 "с 01.01.2024" "9x0" ["z"] [] (Or.inl (by decide))

end Mfd

namespace Mfd

/-- C8: on a document with no `<table>` element the strict parser raises the
"table not found" `ValueError` and returns no record list, while the chart
script prints its failure message and produces no data arrays and no chart. -/
theorem missing_table_behavior (doc : HtmlDoc) (h : doc.tables = []) :
    MFDCurrencyParser.parse doc = .error tableNotFoundMsg ∧
    tableNotFoundMsg = "Таблица с курсами не найдена в HTML контенте" ∧
    level2Run doc = .tableMissing := by
  obtain ⟨tables⟩ := doc
  simp only at h
  subst h
  exact ⟨rfl, rfl, rfl⟩

/-- Witness for C8 at the empty document. -/
theorem missing_table_behavior_witness :
    MFDCurrencyParser.parse ⟨[]⟩ = .error tableNotFoundMsg ∧
    tableNotFoundMsg = "Таблица с курсами не найдена в HTML контенте" ∧
    level2Run ⟨[]⟩ = .tableMissing :=
  missing_table_behavior ⟨[]⟩ rfl

/-- C9: in both variants the first row of the located table is skipped: the
output depends only on the remaining rows, whatever the first row's cell
count or contents. -/
theorem first_row_skipped (doc : HtmlDoc) (t : HtmlTable) (r : List String)
    (rest : List (List String)) (hrows : t.rows = r :: rest) :
    (findTableByClass "mfd-table" doc.tables = some t →
        MFDCurrencyParser.parse doc = .ok (parseDataRows rest)) ∧
    (doc.tables.head? = some t →
        level2Run doc = .chart (processChartRows rest).1 (processChartRows rest).2) := by
  constructor
  · intro hfind
    simp [MFDCurrencyParser.parse, hfind, hrows]
  · intro hhead
    simp [level2Run, hhead, hrows]

/-- Witness for C9: the two-cell first row `["W", "X"]` contributes neither a
record in the strict parser nor a data point in the chart variant. -/
theorem first_row_skipped_witness :
    MFDCurrencyParser.parse ⟨[⟨["mfd-table"], [["W", "X"], ["a", "b", "c"]]⟩]⟩ =
      .ok (parseDataRows [["a", "b", "c"]]) ∧
    level2Run ⟨[⟨["mfd-table"], [["W", "X"], ["a", "b", "c"]]⟩]⟩ =
      .chart (processChartRows [["a", "b", "c"]]).1 (processChartRows [["a", "b", "c"]]).2 :=
  ⟨(first_row_skipped ⟨[⟨["mfd-table"], [["W", "X"], ["a", "b", "c"]]⟩]⟩
      ⟨["mfd-table"], [["W", "X"], ["a", "b", "c"]]⟩ ["W", "X"] [["a", "b", "c"]] rfl).1
      (by decide),
   (first_row_skipped ⟨[⟨["mfd-table"], [["W", "X"], ["a", "b", "c"]]⟩]⟩
      ⟨["mfd-table"], [["W", "X"], ["a", "b", "c"]]⟩ ["W", "X"] [["a", "b", "c"]] rfl).2
      (by decide)⟩

/-- C10: the "table not found" error is decided by the class selector, not by
table presence: on a document whose tables all lack the `mfd-table` class the
strict parser raises the `ValueError`, while the chart script parses the first
table of the same document. -/
theorem class_selector_decides (doc : HtmlDoc) (t0 : HtmlTable)
    (hfirst : doc.tables.head? = some t0)
    (hnone : ∀ t ∈ doc.tables, "mfd-table" ∉ t.classes) :
    MFDCurrencyParser.parse doc = .error tableNotFoundMsg ∧
    level2Run doc =
      .chart (processChartRows (t0.rows.drop 1)).1 (processChartRows (t0.rows.drop 1)).2 := by
  have hfind : findTableByClass "mfd-table" doc.tables = none := by
    unfold findTableByClass
    rw [List.find?_eq_none]
    intro t ht
    simpa using hnone t ht
  constructor
  · simp [MFDCurrencyParser.parse, hfind]
  · simp [level2Run, hfirst]

/-- Witness for C10: a document with one table of class `some-other` makes the
strict parser fail while the chart variant charts that table's data rows. -/
theorem class_selector_decides_witness :
    MFDCurrencyParser.parse ⟨[⟨["some-other"], [["W"], ["a", "b", "c"]]⟩]⟩ =
      .error tableNotFoundMsg ∧
    level2Run ⟨[⟨["some-other"], [["W"], ["a", "b", "c"]]⟩]⟩ =
      .chart (processChartRows [["a", "b", "c"]]).1 (processChartRows [["a", "b", "c"]]).2 :=
  class_selector_decides ⟨[⟨["some-other"], [["W"], ["a", "b", "c"]]⟩]⟩
    ⟨["some-other"], [["W"], ["a", "b", "c"]]⟩ rfl (by decide)

end Mfd
